import Mathlib

/-!
Verification of the PDF text-extraction pipeline of the tax-analyzer
backend: the digital text extractor, the scanned-PDF rasterizer, the
page OCR client (`ocr_space_api`), the per-page OCR loop
(`ocr_scanned_pdf`) and the extraction orchestrator
(`extract_text_from_pdf`).

External collaborators (the PDF parser, the rasterizer, the PNG encoder
and the remote OCR HTTP endpoint) are modelled as deterministic oracles
packaged in an `Env`; the pipeline functions themselves are translated
statement by statement from the Python source and instrumented with
counters (network calls, inter-page delays, re-encodes) so that the
resource-usage properties can be stated.
-/

namespace TaxAnalyzer

/-- Python's `str.strip()` whitespace set (ASCII part): space, tab,
newline, carriage return, vertical tab, form feed. -/
def isPySpace (c : Char) : Bool :=
  (c == ' ') || (c == '\t') || (c == '\n') || (c == '\r') ||
  (c == Char.ofNat 11) || (c == Char.ofNat 12)

/-- Python str.strip on the character list: drop leading and trailing
whitespace. -/
def stripList (l : List Char) : List Char :=
  ((l.dropWhile isPySpace).reverse.dropWhile isPySpace).reverse

/-- Python `s.strip()`. -/
def pyStrip (s : String) : String := String.mk (stripList s.data)

/-- The base64 alphabet, as used by Python's `base64.b64encode`. -/
def base64Chars : List Char :=
  "ABCDEFGHIJKLMNOPQRSTUVWXYZabcdefghijklmnopqrstuvwxyz0123456789+/".data

/-- Character of the base64 alphabet at a 6-bit index. -/
def b64c (n : Nat) : Char := base64Chars.getD n 'A'

/-- RFC 4648 base64 encoding of a byte list (Python
`base64.b64encode(...).decode()`). -/
def base64Encode : List Nat → String
  | [] => ""
  | [a] =>
    let a := a % 256
    String.mk [b64c (a / 4), b64c (a % 4 * 16), '=', '=']
  | [a, b] =>
    let a := a % 256
    let b := b % 256
    String.mk [b64c (a / 4), b64c (a % 4 * 16 + b / 16), b64c (b % 16 * 4), '=']
  | a :: b :: c :: rest =>
    let a := a % 256
    let b := b % 256
    let c := c % 256
    String.mk [b64c (a / 4), b64c (a % 4 * 16 + b / 16),
      b64c (b % 16 * 4 + c / 64), b64c (c % 64)] ++ base64Encode rest

/-- Response JSON of the OCR.space endpoint, as the client reads it:
the `IsErroredOnProcessing` flag and the `ParsedText` of each entry of
`ParsedResults`. -/
structure OcrResponse where
  isErroredOnProcessing : Bool
  parsedResults : List String
  deriving DecidableEq

/-- Outcome of the single `requests.post`: a transport-level error
(`requests.exceptions.RequestException`, which includes the non-2xx
case raised by `raise_for_status`), any other exception (e.g. a
malformed JSON body), or a parsed response. -/
inductive HttpOutcome where
  | transportError : HttpOutcome
  | malformed : HttpOutcome
  | success : OcrResponse → HttpOutcome
  deriving DecidableEq

/-- The form-encoded payload posted to the OCR endpoint. -/
structure Payload where
  apikey : String
  base64Image : String
  filetype : String
  detectOrientation : String
  isCreateSearchablePdf : String
  scale : String
  isTable : String
  OCREngine : String
  deriving DecidableEq

/-- The environment: the service credential and the deterministic
oracles standing for the external collaborators.  `fitzOpen` is
`fitz.open` followed by `page.get_text()` on every page (`none` when
opening raises); `convert` is `pdf2image.convert_from_bytes` (`none`
when it raises), returning page-image identifiers; `encode` is
`PIL.Image.save(format=PNG, quality=q)` giving the encoded bytes of an
image at a quality setting; `net` is the HTTP POST. -/
structure Env where
  apiKey : String
  net : Payload → HttpOutcome
  fitzOpen : List Nat → Option (List String)
  convert : List Nat → Option (List Nat)
  encode : Nat → Nat → List Nat

/-- The payload built by `ocr_space_api` (source lines 93-109). -/
def mkPayload (apikey : String) (imageBytes : List Nat) (isPdf : Bool) : Payload :=
  { apikey := apikey
    base64Image :=
      (if isPdf then "data:application/pdf;base64," else "data:image/png;base64,") ++
        base64Encode imageBytes
    filetype := if isPdf then "PDF" else "PNG"
    detectOrientation := "true"
    isCreateSearchablePdf := "false"
    scale := "true"
    isTable := "true"
    OCREngine := "2" }

/-- Model of `ocr_space_api(image_bytes, is_pdf)` (source lines 85-131),
returning the result together with the number of outbound network calls
made. -/
def ocr_space_api (env : Env) (imageBytes : List Nat) (isPdf : Bool) :
    Option String × Nat :=
  if env.apiKey = "" then (none, 0)
  else
    let payload := mkPayload env.apiKey imageBytes isPdf
    match env.net payload with
    | HttpOutcome.transportError => (none, 1)
    | HttpOutcome.malformed => (none, 1)
    | HttpOutcome.success resp =>
      if resp.isErroredOnProcessing then (none, 1)
      else
        let text := resp.parsedResults.foldl (fun acc t => acc ++ t ++ "\n") ""
        if pyStrip text = "" then (none, 1) else (some (pyStrip text), 1)

/-- The bytes actually submitted for a page: the quality-85 encoding,
re-encoded once at quality 60 when it exceeds 1 MiB (source lines
152-162). -/
def encodedPageBytes (env : Env) (image : Nat) : List Nat :=
  let imgBytes := env.encode image 85
  if imgBytes.length > 1024 * 1024 then env.encode image 60 else imgBytes

/-- Number of re-encode attempts made for a page (0 or 1). -/
def pageReencodes (env : Env) (image : Nat) : Nat :=
  if (env.encode image 85).length > 1024 * 1024 then 1 else 0

/-- The OCR result for one page of the loop. -/
def pageOcr (env : Env) (image : Nat) : Option String :=
  (ocr_space_api env (encodedPageBytes env image) false).1

/-- Network calls made while OCRing one page. -/
def pageOcrCalls (env : Env) (image : Nat) : Nat :=
  (ocr_space_api env (encodedPageBytes env image) false).2

/-- What one page (0-based index `i`) appends to the accumulator:
`"\n--- Page {i+1} ---\n{page_text}\n"` when `page_text` is truthy,
nothing otherwise (source lines 167-168). -/
def pageSegment (env : Env) (i : Nat) (image : Nat) : String :=
  match pageOcr env image with
  | some t =>
    if t = "" then ""
    else "\n--- Page " ++ toString (i + 1) ++ " ---\n" ++ t ++ "\n"
  | none => ""

/-- Contribution of one page to `success_count`. -/
def pageSuccess (env : Env) (image : Nat) : Nat :=
  match pageOcr env image with
  | some t => if t = "" then 0 else 1
  | none => 0

/-- State threaded through the per-page loop of `ocr_scanned_pdf`,
with instrumentation counters. -/
structure LoopState where
  allText : String
  successCount : Nat
  delays : Nat
  netCalls : Nat
  ocrInvocations : Nat
  reencodes : Nat
  deriving DecidableEq

/-- The body of the per-page loop (source lines 147-180) for the page at
0-based index `pg.1` with image `pg.2`: encode (re-encoding once if
oversized), OCR, append on success, then sleep 500 ms unless this is
the last page. -/
def processPage (env : Env) (totalPages : Nat) (st : LoopState)
    (pg : Nat × Nat) : LoopState :=
  let st1 : LoopState :=
    { allText := st.allText ++ pageSegment env pg.1 pg.2
      successCount := st.successCount + pageSuccess env pg.2
      delays := st.delays
      netCalls := st.netCalls + pageOcrCalls env pg.2
      ocrInvocations := st.ocrInvocations + 1
      reencodes := st.reencodes + pageReencodes env pg.2 }
  if pg.1 < totalPages - 1 then { st1 with delays := st1.delays + 1 } else st1

/-- Initial loop state: `all_text = ""`, `success_count = 0`. -/
def initState : LoopState :=
  { allText := "", successCount := 0, delays := 0, netCalls := 0,
    ocrInvocations := 0, reencodes := 0 }

/-- Observable outcome of `ocr_scanned_pdf`, with the raw accumulator
and the instrumentation counters. -/
structure ScanTrace where
  result : Option String
  allText : String
  successCount : Nat
  delays : Nat
  netCalls : Nat
  ocrInvocations : Nat
  reencodes : Nat
  totalPages : Nat
  deriving DecidableEq

/-- Model of `ocr_scanned_pdf(pdf_bytes)` (source lines 133-192):
rasterize, loop over pages, return the stripped accumulator if
non-empty. -/
def ocr_scanned_pdf (env : Env) (pdfBytes : List Nat) : ScanTrace :=
  match env.convert pdfBytes with
  | none =>
    { result := none, allText := "", successCount := 0, delays := 0,
      netCalls := 0, ocrInvocations := 0, reencodes := 0, totalPages := 0 }
  | some images =>
    let st := images.enum.foldl (processPage env images.length) initState
    { result := if pyStrip st.allText = "" then none else some (pyStrip st.allText)
      allText := st.allText
      successCount := st.successCount
      delays := st.delays
      netCalls := st.netCalls
      ocrInvocations := st.ocrInvocations
      reencodes := st.reencodes
      totalPages := images.length }

/-- Which path produced the final text. -/
inductive Source where
  | digital : Source
  | ocr : Source
  deriving DecidableEq

/-- Observable outcome of `extract_text_from_pdf`. -/
structure ExtractTrace where
  text : Option String
  source : Option Source
  rasterAttempted : Bool
  delays : Nat
  netCalls : Nat
  ocrInvocations : Nat
  deriving DecidableEq

/-- Model of `extract_text_from_pdf(pdf_bytes)` (source lines 194-219).
When
`fitz.open` raises, the exception reaches the outer handler and the
function returns `None` (the OCR fallback is not attempted); when it
parses, the digital text is returned if its stripped form is truthy and
longer than 100 characters, otherwise `ocr_scanned_pdf` runs. -/
def extract_text_from_pdf (env : Env) (pdfBytes : List Nat) : ExtractTrace :=
  match env.fitzOpen pdfBytes with
  | none =>
    { text := none, source := none, rasterAttempted := false,
      delays := 0, netCalls := 0, ocrInvocations := 0 }
  | some pages =>
    let text := String.join pages
    if pyStrip text ≠ "" ∧ (pyStrip text).length > 100 then
      { text := some text, source := some Source.digital,
        rasterAttempted := false, delays := 0, netCalls := 0,
        ocrInvocations := 0 }
    else
      let tr := ocr_scanned_pdf env pdfBytes
      match tr.result with
      | some t =>
        if t = "" then
          { text := none, source := none, rasterAttempted := true,
            delays := tr.delays, netCalls := tr.netCalls,
            ocrInvocations := tr.ocrInvocations }
        else
          { text := some t, source := some Source.ocr,
            rasterAttempted := true, delays := tr.delays,
            netCalls := tr.netCalls, ocrInvocations := tr.ocrInvocations }
      | none =>
        { text := none, source := none, rasterAttempted := true,
          delays := tr.delays, netCalls := tr.netCalls,
          ocrInvocations := tr.ocrInvocations }

/-- Page-ordered concatenation of the per-page segments: the closed form
of the accumulator built by the loop over an enumerated page list. -/
def segsOf (env : Env) : List (Nat × Nat) → String
  | [] => ""
  | pg :: rest => pageSegment env pg.1 pg.2 ++ segsOf env rest

/-- Closed form of the loop's `success_count`. -/
def succOf (env : Env) : List (Nat × Nat) → Nat
  | [] => 0
  | pg :: rest => pageSuccess env pg.2 + succOf env rest

/-- Closed form of the number of inter-page delays issued by the loop. -/
def delaysOf (totalPages : Nat) : List (Nat × Nat) → Nat
  | [] => 0
  | pg :: rest => (if pg.1 < totalPages - 1 then 1 else 0) + delaysOf totalPages rest

/-- Closed form of the number of outbound network calls of the loop. -/
def netOf (env : Env) : List (Nat × Nat) → Nat
  | [] => 0
  | pg :: rest => pageOcrCalls env pg.2 + netOf env rest

/-- Closed form of the number of re-encodes performed by the loop. -/
def reencOf (env : Env) : List (Nat × Nat) → Nat
  | [] => 0
  | pg :: rest => pageReencodes env pg.2 + reencOf env rest

/-- Modelled from the spec: the per-page contribution as the claim words
it, the segment consisting of the header followed directly by the
recognized text, with no surrounding newlines. -/
def claimSegment (i : Nat) (t : String) : String :=
  "--- Page " ++ toString (i + 1) ++ " ---\n" ++ t

/-- A network oracle that always fails at the transport level. -/
def netFail : Payload → HttpOutcome := fun _ => HttpOutcome.transportError

/-- Concrete environment: no credential, a one-page digital PDF holding
101 characters of text. -/
def envDigital : Env :=
  { apiKey := ""
    net := netFail
    fitzOpen := fun _ => some [String.mk (List.replicate 101 'a')]
    convert := fun _ => none
    encode := fun _ _ => [] }

/-- Concrete environment: opening the PDF raises (parse failure) while
rasterization would succeed with one page. -/
def envParseFail : Env :=
  { apiKey := "k"
    net := netFail
    fitzOpen := fun _ => none
    convert := fun _ => some [0]
    encode := fun _ _ => [] }

/-- Concrete environment: the PDF parses with no pages and rasterizes to
an empty page sequence. -/
def envShortDigital : Env :=
  { apiKey := ""
    net := netFail
    fitzOpen := fun _ => some []
    convert := fun _ => some []
    encode := fun _ _ => [] }

/-- Concrete environment: one rasterized page whose OCR succeeds with
text abc. -/
def envOnePage : Env :=
  { apiKey := "k"
    net := fun _ =>
      HttpOutcome.success { isErroredOnProcessing := false, parsedResults := ["abc"] }
    fitzOpen := fun _ => some []
    convert := fun _ => some [0]
    encode := fun _ _ => [] }

/-- Concrete environment: three rasterized pages where the OCR of the
second page is flagged as errored and the others recognize the text T. -/
def envThreePages : Env :=
  { apiKey := "k"
    net := fun pl =>
      if pl.base64Image = "data:image/png;base64," ++ base64Encode [2] then
        HttpOutcome.success { isErroredOnProcessing := true, parsedResults := [] }
      else
        HttpOutcome.success { isErroredOnProcessing := false, parsedResults := ["T"] }
    fitzOpen := fun _ => some []
    convert := fun _ => some [1, 2, 3]
    encode := fun img _ => [img] }

/-- Concrete environment: the quality-85 encoding of every page exceeds
1 MiB, the quality-60 one is empty. -/
def envBigImage : Env :=
  { apiKey := "k"
    net := netFail
    fitzOpen := fun _ => none
    convert := fun _ => none
    encode := fun _ q => if q = 85 then List.replicate (1024 * 1024 + 1) 0 else [] }

/-- Concrete environment: the OCR endpoint answers with a single parsed
result carrying surrounding whitespace. -/
def envOcrText : Env :=
  { apiKey := "k"
    net := fun _ =>
      HttpOutcome.success { isErroredOnProcessing := false, parsedResults := [" hello "] }
    fitzOpen := fun _ => none
    convert := fun _ => none
    encode := fun _ _ => [] }

/-- Dropping while a predicate holds is idempotent. -/
theorem dropWhile_dropWhile (p : α → Bool) (l : List α) :
    (l.dropWhile p).dropWhile p = l.dropWhile p := by
  induction l with
  | nil => rfl
  | cons a l ih =>
    by_cases h : p a = true
    · simp [List.dropWhile_cons, h, ih]
    · simp [List.dropWhile_cons, h]

/-- The head surviving a dropWhile falsifies the predicate. -/
theorem dropWhile_head_false (p : α → Bool) :
    ∀ (l : List α) (a : α) (rest : List α),
      List.dropWhile p l = a :: rest → p a = false := by
  intro l
  induction l with
  | nil => intro a rest h; simp [List.dropWhile] at h
  | cons b l ih =>
    intro a rest h
    by_cases hb : p b = true
    · rw [List.dropWhile_cons, if_pos hb] at h
      exact ih a rest h
    · rw [List.dropWhile_cons, if_neg hb] at h
      cases h
      simpa using hb

/-- dropWhile produces a suffix of its input. -/
theorem dropWhile_suffix_ex (p : α → Bool) :
    ∀ l : List α, ∃ t, t ++ l.dropWhile p = l := by
  intro l
  induction l with
  | nil => exact ⟨[], rfl⟩
  | cons a l ih =>
    by_cases h : p a = true
    · obtain ⟨t, ht⟩ := ih
      exact ⟨a :: t, by rw [List.dropWhile_cons, if_pos h, List.cons_append, ht]⟩
    · exact ⟨[], by rw [List.dropWhile_cons, if_neg h, List.nil_append]⟩

/-- Stripping both ends is idempotent. -/
theorem stripList_stripList (l : List Char) :
    stripList (stripList l) = stripList l := by
  unfold stripList
  set u := l.dropWhile isPySpace with hu
  set v := u.reverse.dropWhile isPySpace with hv
  have hw : v.reverse.dropWhile isPySpace = v.reverse := by
    cases hvr : v.reverse with
    | nil => simp
    | cons c w =>
      obtain ⟨t, ht⟩ := dropWhile_suffix_ex isPySpace u.reverse
      rw [← hv] at ht
      have hu2 : v.reverse ++ t.reverse = u := by
        have h := congrArg List.reverse ht
        simpa using h
      have hcu : u = c :: (w ++ t.reverse) := by
        rw [← hu2, hvr, List.cons_append]
      have hc : isPySpace c = false := by
        refine dropWhile_head_false isPySpace l c (w ++ t.reverse) ?_
        rw [← hu, hcu]
      rw [List.dropWhile_cons, if_neg (by simp [hc])]
  rw [hw, List.reverse_reverse, hv, dropWhile_dropWhile]

/-- Python strip is idempotent. -/
theorem pyStrip_pyStrip (s : String) : pyStrip (pyStrip s) = pyStrip s :=
  congrArg String.mk (stripList_stripList s.data)

/-- A string of positive length is not the empty string. -/
theorem ne_empty_of_length_pos (s : String) (h : 0 < s.length) : s ≠ "" := by
  intro he
  rw [he] at h
  simp [String.length] at h

/-- Closed form of the per-page loop: the fold decomposes componentwise
into the page-ordered concatenation of segments and the sums of the
per-page counters. -/
theorem foldl_processPage (env : Env) (total : Nat) :
    ∀ (l : List (Nat × Nat)) (st : LoopState),
      l.foldl (processPage env total) st =
        { allText := st.allText ++ segsOf env l
          successCount := st.successCount + succOf env l
          delays := st.delays + delaysOf total l
          netCalls := st.netCalls + netOf env l
          ocrInvocations := st.ocrInvocations + l.length
          reencodes := st.reencodes + reencOf env l } := by
  intro l
  induction l with
  | nil =>
    intro st
    cases st
    simp [segsOf, succOf, delaysOf, netOf, reencOf]
  | cons pg rest ih =>
    intro st
    rw [List.foldl_cons, ih]
    unfold processPage
    by_cases h : pg.1 < total - 1
    · simp [h, segsOf, succOf, delaysOf, netOf, reencOf, LoopState.mk.injEq,
        String.append_assoc]
      omega
    · simp [h, segsOf, succOf, delaysOf, netOf, reencOf, LoopState.mk.injEq,
        String.append_assoc]
      omega

/-- Closed form of `ocr_scanned_pdf` when rasterization succeeds. -/
theorem ocr_scanned_pdf_eq (env : Env) (pdf : List Nat) (images : List Nat)
    (hconv : env.convert pdf = some images) :
    ocr_scanned_pdf env pdf =
      { result :=
          if pyStrip (segsOf env images.enum) = "" then none
          else some (pyStrip (segsOf env images.enum))
        allText := segsOf env images.enum
        successCount := succOf env images.enum
        delays := delaysOf images.length images.enum
        netCalls := netOf env images.enum
        ocrInvocations := images.enum.length
        reencodes := reencOf env images.enum
        totalPages := images.length } := by
  simp only [ocr_scanned_pdf, hconv]
  rw [foldl_processPage]
  simp [initState]

/-- Number of delays over an enumeration starting at `k`: one per page
except the last. -/
theorem delaysOf_enumFrom :
    ∀ (images : List Nat) (k total : Nat), k + images.length = total →
      delaysOf total (List.enumFrom k images) = images.length - 1 := by
  intro images
  induction images with
  | nil => intro k total _; simp [delaysOf]
  | cons img rest ih =>
    intro k total h
    rw [List.enumFrom_cons]
    simp only [delaysOf]
    rw [ih (k + 1) total (by simp only [List.length_cons] at h; omega)]
    simp only [List.length_cons] at h ⊢
    by_cases hk : k < total - 1
    · rw [if_pos hk]; omega
    · rw [if_neg hk]; omega

/-- When every page of the list fails OCR, the concatenated segments are
empty. -/
theorem segsOf_eq_empty (env : Env) :
    ∀ l : List (Nat × Nat), (∀ pg ∈ l, pageOcr env pg.2 = none) →
      segsOf env l = "" := by
  intro l
  induction l with
  | nil => intro _; rfl
  | cons pg rest ih =>
    intro h
    have h1 : pageOcr env pg.2 = none := h pg (by simp)
    have h2 := ih fun q hq => h q (by simp [hq])
    simp [segsOf, pageSegment, h1, h2]

/-- Any text returned by `ocr_scanned_pdf` is non-empty and already
stripped. -/
theorem scan_result_some (env : Env) (pdf : List Nat) (t : String)
    (h : (ocr_scanned_pdf env pdf).result = some t) :
    pyStrip t = t ∧ t ≠ "" := by
  unfold ocr_scanned_pdf at h
  cases hconv : env.convert pdf with
  | none => rw [hconv] at h; simp at h
  | some images =>
    rw [hconv] at h
    simp only at h
    by_cases hs : pyStrip (images.enum.foldl (processPage env images.length) initState).allText = ""
    · rw [if_pos hs] at h; simp at h
    · rw [if_neg hs] at h
      have ht : t = pyStrip (images.enum.foldl (processPage env images.length) initState).allText := by
        simpa using h.symm
      subst ht
      exact ⟨pyStrip_pyStrip _, hs⟩

/-- C1: for every PDF byte buffer that parses and whose per-page text,
concatenated in page order and stripped, is longer than 100 characters,
the orchestrator returns a digital-source success whose text is the
page-ordered concatenation of the per-page text, and neither
rasterization nor any OCR call happens. -/
theorem digital_path_over_threshold (env : Env) (pdf : List Nat)
    (pages : List String)
    (hparse : env.fitzOpen pdf = some pages)
    (hlen : 100 < (pyStrip (String.join pages)).length) :
    (extract_text_from_pdf env pdf).text = some (String.join pages) ∧
    (extract_text_from_pdf env pdf).source = some Source.digital ∧
    (extract_text_from_pdf env pdf).rasterAttempted = false ∧
    (extract_text_from_pdf env pdf).netCalls = 0 ∧
    (extract_text_from_pdf env pdf).ocrInvocations = 0 ∧
    (extract_text_from_pdf env pdf).delays = 0 := by
  have hne : pyStrip (String.join pages) ≠ "" :=
    ne_empty_of_length_pos _ (by omega)
  have htr : extract_text_from_pdf env pdf =
      { text := some (String.join pages), source := some Source.digital,
        rasterAttempted := false, delays := 0, netCalls := 0,
        ocrInvocations := 0 } := by
    simp only [extract_text_from_pdf, hparse]
    rw [if_pos (And.intro hne hlen)]
  rw [htr]
  exact ⟨rfl, rfl, rfl, rfl, rfl, rfl⟩

/-- Witness for C1 at a concrete one-page digital PDF with 101
characters of text. -/
theorem digital_path_over_threshold_witness :
    (extract_text_from_pdf envDigital []).text =
      some (String.join [String.mk (List.replicate 101 'a')]) ∧
    (extract_text_from_pdf envDigital []).source = some Source.digital ∧
    (extract_text_from_pdf envDigital []).rasterAttempted = false ∧
    (extract_text_from_pdf envDigital []).netCalls = 0 ∧
    (extract_text_from_pdf envDigital []).ocrInvocations = 0 ∧
    (extract_text_from_pdf envDigital []).delays = 0 :=
  digital_path_over_threshold envDigital [] [String.mk (List.replicate 101 'a')]
    rfl (by decide)

/-- C2, counterexample: an input on which PDF parsing fails while
rasterization would succeed with one page; the orchestrator returns
absent without attempting rasterization, so the claimed fallback to the
rasterization-plus-OCR path does not happen. -/
theorem parse_failure_no_fallback_cex :
    envParseFail.fitzOpen [] = none ∧
    envParseFail.convert [] = some [0] ∧
    (extract_text_from_pdf envParseFail []).rasterAttempted = false ∧
    (extract_text_from_pdf envParseFail []).text = none := by
  exact ⟨rfl, rfl, rfl, rfl⟩

/-- C2, amended: a parse failure is fatal to the whole extraction — the
orchestrator returns absent without attempting rasterization; the
rasterization-plus-OCR fallback runs exactly when the PDF parses but its
stripped digital text has length at most 100. -/
theorem parse_failure_returns_absent (env : Env) (pdf : List Nat) :
    (env.fitzOpen pdf = none →
      (extract_text_from_pdf env pdf).text = none ∧
      (extract_text_from_pdf env pdf).rasterAttempted = false) ∧
    (∀ pages, env.fitzOpen pdf = some pages →
      (pyStrip (String.join pages)).length ≤ 100 →
      (extract_text_from_pdf env pdf).rasterAttempted = true) := by
  constructor
  · intro h
    simp [extract_text_from_pdf, h]
  · intro pages h hlen
    have hcond : ¬(pyStrip (String.join pages) ≠ "" ∧
        100 < (pyStrip (String.join pages)).length) := by
      intro hc
      omega
    simp only [extract_text_from_pdf, h]
    rw [if_neg hcond]
    cases hres : (ocr_scanned_pdf env pdf).result with
    | none => simp [hres]
    | some t =>
      simp only [hres]
      by_cases ht : t = "" <;> simp [ht]

/-- Witness for C2's amended claim: the parse-failure branch at
`envParseFail` and the fallback branch at `envShortDigital`. -/
theorem parse_failure_returns_absent_witness :
    ((extract_text_from_pdf envParseFail []).text = none ∧
     (extract_text_from_pdf envParseFail []).rasterAttempted = false) ∧
    (extract_text_from_pdf envShortDigital []).rasterAttempted = true :=
  ⟨(parse_failure_returns_absent envParseFail []).1 rfl,
   (parse_failure_returns_absent envShortDigital []).2 [] rfl (by decide)⟩

/-- C5: the per-page loop issues exactly one fewer 500 ms delay than
there are rasterized pages (so N-1 delays for N pages, none for zero or
one page), never delaying after the last page. -/
theorem inter_page_delay_count (env : Env) (pdf : List Nat)
    (images : List Nat) (hconv : env.convert pdf = some images) :
    (ocr_scanned_pdf env pdf).delays = images.length - 1 := by
  rw [ocr_scanned_pdf_eq env pdf images hconv]
  show delaysOf images.length images.enum = images.length - 1
  rw [List.enum_eq_enumFrom]
  exact delaysOf_enumFrom images 0 images.length (by omega)

/-- Witness for C5 at a concrete three-page document: two delays. -/
theorem inter_page_delay_count_witness :
    (ocr_scanned_pdf envThreePages []).delays = ([1, 2, 3] : List Nat).length - 1 :=
  inter_page_delay_count envThreePages [] [1, 2, 3] rfl

/-- The orchestrator's result invariant: whenever a source is present,
the text is present, non-empty and not whitespace-only. -/
theorem extract_invariant (env : Env) (pdf : List Nat) :
    ∀ src, (extract_text_from_pdf env pdf).source = some src →
      ∃ t, (extract_text_from_pdf env pdf).text = some t ∧ t ≠ "" ∧
        pyStrip t ≠ "" := by
  intro src hsrc
  cases hp : env.fitzOpen pdf with
  | none => simp [extract_text_from_pdf, hp] at hsrc
  | some pages =>
    by_cases hcond : pyStrip (String.join pages) ≠ "" ∧
        100 < (pyStrip (String.join pages)).length
    · have htr : extract_text_from_pdf env pdf =
          { text := some (String.join pages), source := some Source.digital,
            rasterAttempted := false, delays := 0, netCalls := 0,
            ocrInvocations := 0 } := by
        simp only [extract_text_from_pdf, hp]
        rw [if_pos hcond]
      refine ⟨String.join pages, by rw [htr], ?_, hcond.1⟩
      intro he
      exact hcond.1 (by rw [he]; rfl)
    · cases hres : (ocr_scanned_pdf env pdf).result with
      | none =>
        have htr : (extract_text_from_pdf env pdf).source = none := by
          simp only [extract_text_from_pdf, hp]
          rw [if_neg hcond]
          simp [hres]
        rw [htr] at hsrc
        simp at hsrc
      | some t =>
        obtain ⟨hts, htne⟩ := scan_result_some env pdf t hres
        have htr : (extract_text_from_pdf env pdf).text = some t := by
          simp only [extract_text_from_pdf, hp]
          rw [if_neg hcond]
          simp [hres, htne]
        exact ⟨t, htr, htne, by rw [hts]; exact htne⟩

/-- C3: when rasterization succeeds but every page's OCR call fails, the
orchestration returns total failure (absent); and in general a present
source comes with a non-empty, non-whitespace-only text. -/
theorem all_pages_fail_total_failure (env : Env) (pdf : List Nat)
    (images : List Nat)
    (hconv : env.convert pdf = some images)
    (hfail : ∀ img ∈ images, pageOcr env img = none) :
    (ocr_scanned_pdf env pdf).result = none ∧
    (∀ src, (extract_text_from_pdf env pdf).source = some src →
      ∃ t, (extract_text_from_pdf env pdf).text = some t ∧ t ≠ "" ∧
        pyStrip t ≠ "") := by
  constructor
  · rw [ocr_scanned_pdf_eq env pdf images hconv]
    have hsegs : segsOf env images.enum = "" := by
      refine segsOf_eq_empty env images.enum ?_
      intro pg hpg
      refine hfail pg.2 ?_
      have hm : pg.2 ∈ images.enum.map Prod.snd :=
        List.mem_map_of_mem Prod.snd hpg
      rwa [List.enum_map_snd] at hm
    simp [hsegs, pyStrip, stripList]
  · exact extract_invariant env pdf

/-- Witness for C3 at a one-page document whose single OCR call fails at
the transport level. -/
theorem all_pages_fail_total_failure_witness :
    (ocr_scanned_pdf envParseFail []).result = none :=
  (all_pages_fail_total_failure envParseFail [] [0] rfl (by decide)).1

/-- C10: a PDF that parses with at most 100 characters of stripped
digital text and rasterizes to zero page images yields total failure
with zero OCR invocations, zero network calls and zero delays. -/
theorem empty_raster_total_failure (env : Env) (pdf : List Nat)
    (pages : List String)
    (hparse : env.fitzOpen pdf = some pages)
    (hshort : (pyStrip (String.join pages)).length ≤ 100)
    (hconv : env.convert pdf = some []) :
    (extract_text_from_pdf env pdf).text = none ∧
    (extract_text_from_pdf env pdf).rasterAttempted = true ∧
    (extract_text_from_pdf env pdf).netCalls = 0 ∧
    (extract_text_from_pdf env pdf).ocrInvocations = 0 ∧
    (extract_text_from_pdf env pdf).delays = 0 := by
  have hscan : ocr_scanned_pdf env pdf =
      { result := none, allText := "", successCount := 0, delays := 0,
        netCalls := 0, ocrInvocations := 0, reencodes := 0,
        totalPages := 0 } := by
    rw [ocr_scanned_pdf_eq env pdf [] hconv]
    simp [segsOf, succOf, delaysOf, netOf, reencOf, pyStrip, stripList]
  have hcond : ¬(pyStrip (String.join pages) ≠ "" ∧
      100 < (pyStrip (String.join pages)).length) := by
    intro hc
    omega
  have htr : extract_text_from_pdf env pdf =
      { text := none, source := none, rasterAttempted := true,
        delays := 0, netCalls := 0, ocrInvocations := 0 } := by
    simp only [extract_text_from_pdf, hparse]
    rw [if_neg hcond]
    simp [hscan]
  rw [htr]
  exact ⟨rfl, rfl, rfl, rfl, rfl⟩

/-- Witness for C10 at a concrete zero-page, zero-text PDF. -/
theorem empty_raster_total_failure_witness :
    (extract_text_from_pdf envShortDigital []).text = none ∧
    (extract_text_from_pdf envShortDigital []).rasterAttempted = true ∧
    (extract_text_from_pdf envShortDigital []).netCalls = 0 ∧
    (extract_text_from_pdf envShortDigital []).ocrInvocations = 0 ∧
    (extract_text_from_pdf envShortDigital []).delays = 0 :=
  empty_raster_total_failure envShortDigital [] [] rfl (by decide) rfl

/-- C4, counterexample: on a one-page document whose OCR succeeds with
text abc, the accumulator receives the segment with a leading newline
and a trailing newline, not the bare header-plus-text segment the claim
states. -/
theorem page_segment_literal_cex :
    pageOcr envOnePage 0 = some "abc" ∧
    (ocr_scanned_pdf envOnePage []).allText = "\n--- Page 1 ---\nabc\n" ∧
    (ocr_scanned_pdf envOnePage []).allText ≠ claimSegment 0 "abc" := by
  refine ⟨rfl, rfl, ?_⟩
  decide

/-- C4, amended: in the per-page OCR loop the accumulator is exactly the
page-ordered concatenation of the per-page segments, where a successful
page with 1-based index N contributes a newline, then the header, then
its text, then a newline, and a failed page contributes nothing and does
not abort the batch; in the three-page scenario where only page 2 fails
the text holds pages 1 and 3 under their headers and the success count
is 2. -/
theorem page_loop_decomposition :
    (∀ (env : Env) (pdf : List Nat) (images : List Nat),
      env.convert pdf = some images →
      (ocr_scanned_pdf env pdf).allText = segsOf env images.enum ∧
      (ocr_scanned_pdf env pdf).successCount = succOf env images.enum) ∧
    (∀ (env : Env) (pdf : List Nat) (i1 i2 i3 : Nat) (t1 t3 : String),
      env.convert pdf = some [i1, i2, i3] →
      pageOcr env i1 = some t1 → t1 ≠ "" →
      pageOcr env i2 = none →
      pageOcr env i3 = some t3 → t3 ≠ "" →
      (ocr_scanned_pdf env pdf).allText =
        "\n--- Page 1 ---\n" ++ t1 ++ "\n" ++
          ("\n--- Page 3 ---\n" ++ t3 ++ "\n") ∧
      (ocr_scanned_pdf env pdf).successCount = 2) := by
  constructor
  · intro env pdf images hconv
    rw [ocr_scanned_pdf_eq env pdf images hconv]
    exact ⟨rfl, rfl⟩
  · intro env pdf i1 i2 i3 t1 t3 hconv h1 ht1 h2 h3 ht3
    rw [ocr_scanned_pdf_eq env pdf [i1, i2, i3] hconv]
    have henum : ([i1, i2, i3] : List Nat).enum = [(0, i1), (1, i2), (2, i3)] := rfl
    rw [henum]
    constructor
    · show segsOf env [(0, i1), (1, i2), (2, i3)] = _
      simp only [segsOf, pageSegment, h1, h2, h3]
      rw [if_neg ht1, if_neg ht3]
      have hlit1 : "\n--- Page " ++ toString (0 + 1) ++ " ---\n" =
          ("\n--- Page 1 ---\n" : String) := rfl
      have hlit3 : "\n--- Page " ++ toString (2 + 1) ++ " ---\n" =
          ("\n--- Page 3 ---\n" : String) := rfl
      rw [hlit1, hlit3]
      simp [String.append_assoc]
    · show succOf env [(0, i1), (1, i2), (2, i3)] = 2
      simp only [succOf, pageSuccess, h1, h2, h3]
      rw [if_neg ht1, if_neg ht3]

/-- Witness for C4's amended claim at the concrete three-page document
where page 2's OCR call is flagged as errored. -/
theorem page_loop_decomposition_witness :
    ((ocr_scanned_pdf envThreePages []).allText =
        segsOf envThreePages ([1, 2, 3] : List Nat).enum ∧
     (ocr_scanned_pdf envThreePages []).successCount =
        succOf envThreePages ([1, 2, 3] : List Nat).enum) ∧
    ((ocr_scanned_pdf envThreePages []).allText =
        "\n--- Page 1 ---\n" ++ "T" ++ "\n" ++
          ("\n--- Page 3 ---\n" ++ "T" ++ "\n") ∧
     (ocr_scanned_pdf envThreePages []).successCount = 2) :=
  ⟨page_loop_decomposition.1 envThreePages [] [1, 2, 3] rfl,
   page_loop_decomposition.2 envThreePages [] 1 2 3 "T" "T" rfl (by decide)
     (by decide) (by decide) (by decide) (by decide)⟩

/-- C6: a page image whose quality-85 encoding exceeds 1 MiB is
re-encoded exactly once at quality 60 and submitted as that second
encoding whatever its size; an image at or under 1 MiB is submitted as
first encoded with no re-encode.  The bytes reaching the OCR client are
exactly these. -/
theorem oversized_reencode_once (env : Env) (image : Nat) :
    ((env.encode image 85).length > 1024 * 1024 →
      encodedPageBytes env image = env.encode image 60 ∧
      pageReencodes env image = 1) ∧
    ((env.encode image 85).length ≤ 1024 * 1024 →
      encodedPageBytes env image = env.encode image 85 ∧
      pageReencodes env image = 0) ∧
    pageOcr env image = (ocr_space_api env (encodedPageBytes env image) false).1 := by
  refine ⟨fun h => ?_, fun h => ?_, rfl⟩
  · constructor
    · simp only [encodedPageBytes]
      rw [if_pos h]
    · simp only [pageReencodes]
      rw [if_pos h]
  · constructor
    · simp only [encodedPageBytes]
      rw [if_neg (by omega)]
    · simp only [pageReencodes]
      rw [if_neg (by omega)]

/-- Witness for C6: the oversized branch at `envBigImage`, the small
branch at `envDigital`. -/
theorem oversized_reencode_once_witness :
    (encodedPageBytes envBigImage 0 = envBigImage.encode 0 60 ∧
     pageReencodes envBigImage 0 = 1) ∧
    (encodedPageBytes envDigital 0 = envDigital.encode 0 85 ∧
     pageReencodes envDigital 0 = 0) :=
  ⟨(oversized_reencode_once envBigImage 0).1
      (by
        have h85 : envBigImage.encode 0 85 = List.replicate (1024 * 1024 + 1) 0 := by
          show (if (85 : Nat) = 85 then List.replicate (1024 * 1024 + 1) 0 else []) = _
          rw [if_pos rfl]
        rw [h85, List.length_replicate]
        omega),
   (oversized_reencode_once envDigital 0).2.1
      (by simp [envDigital])⟩

/-- C7: the page OCR client returns absent with zero outbound calls when
the credential is missing, and otherwise makes exactly one outbound
call, returning absent on a transport error, on a malformed or non-2xx
response, or on a response flagged as errored on processing. -/
theorem ocr_client_failure_modes (env : Env) (imageBytes : List Nat)
    (isPdf : Bool) :
    (env.apiKey = "" → ocr_space_api env imageBytes isPdf = (none, 0)) ∧
    (env.apiKey ≠ "" →
      (ocr_space_api env imageBytes isPdf).2 = 1 ∧
      (env.net (mkPayload env.apiKey imageBytes isPdf) =
          HttpOutcome.transportError →
        (ocr_space_api env imageBytes isPdf).1 = none) ∧
      (env.net (mkPayload env.apiKey imageBytes isPdf) =
          HttpOutcome.malformed →
        (ocr_space_api env imageBytes isPdf).1 = none) ∧
      (∀ resp, env.net (mkPayload env.apiKey imageBytes isPdf) =
          HttpOutcome.success resp →
        resp.isErroredOnProcessing = true →
        (ocr_space_api env imageBytes isPdf).1 = none)) := by
  constructor
  · intro h
    simp [ocr_space_api, h]
  · intro h
    refine ⟨?_, ?_, ?_, ?_⟩
    · cases hnet : env.net (mkPayload env.apiKey imageBytes isPdf) with
      | transportError => simp [ocr_space_api, h, hnet]
      | malformed => simp [ocr_space_api, h, hnet]
      | success resp =>
        simp only [ocr_space_api, h, hnet, if_neg h]
        by_cases herr : resp.isErroredOnProcessing <;> simp [herr] <;> split <;> rfl
    · intro hnet
      simp [ocr_space_api, h, hnet]
    · intro hnet
      simp [ocr_space_api, h, hnet]
    · intro resp hnet herr
      simp [ocr_space_api, h, hnet, herr]

/-- Witness for C7: the missing-credential branch at `envDigital` and
the transport-error branch at `envParseFail`. -/
theorem ocr_client_failure_modes_witness :
    ocr_space_api envDigital [] false = (none, 0) ∧
    (ocr_space_api envParseFail [] false).2 = 1 ∧
    (ocr_space_api envParseFail [] false).1 = none :=
  ⟨(ocr_client_failure_modes envDigital [] false).1 rfl,
   ((ocr_client_failure_modes envParseFail [] false).2 (by decide)).1,
   ((ocr_client_failure_modes envParseFail [] false).2 (by decide)).2.1 rfl⟩

/-- C8: the payload submitted to the OCR service is the exact fixed
form-encoded record: data-URI-prefixed base64 image, filetype PNG (PDF
when the PDF flag is set), detectOrientation true,
isCreateSearchablePdf false, scale true, isTable true, OCREngine 2. -/
theorem ocr_payload_fields (key : String) (imageBytes : List Nat)
    (isPdf : Bool) :
    (mkPayload key imageBytes false).filetype = "PNG" ∧
    (mkPayload key imageBytes false).base64Image =
      "data:image/png;base64," ++ base64Encode imageBytes ∧
    (mkPayload key imageBytes true).filetype = "PDF" ∧
    (mkPayload key imageBytes true).base64Image =
      "data:application/pdf;base64," ++ base64Encode imageBytes ∧
    (mkPayload key imageBytes isPdf).apikey = key ∧
    (mkPayload key imageBytes isPdf).detectOrientation = "true" ∧
    (mkPayload key imageBytes isPdf).isCreateSearchablePdf = "false" ∧
    (mkPayload key imageBytes isPdf).scale = "true" ∧
    (mkPayload key imageBytes isPdf).isTable = "true" ∧
    (mkPayload key imageBytes isPdf).OCREngine = "2" :=
  ⟨rfl, rfl, rfl, rfl, rfl, rfl, rfl, rfl, rfl, rfl⟩

/-- C9: any text the page OCR client returns is non-empty and carries no
leading or trailing whitespace (it is a fixed point of stripping); the
empty or whitespace-only concatenation is returned as absent instead. -/
theorem ocr_client_text_invariant (env : Env) (imageBytes : List Nat)
    (isPdf : Bool) (t : String)
    (h : (ocr_space_api env imageBytes isPdf).1 = some t) :
    t ≠ "" ∧ pyStrip t = t := by
  unfold ocr_space_api at h
  by_cases hk : env.apiKey = ""
  · rw [if_pos hk] at h
    simp at h
  · rw [if_neg hk] at h
    simp only at h
    cases hnet : env.net (mkPayload env.apiKey imageBytes isPdf) with
    | transportError => rw [hnet] at h; simp at h
    | malformed => rw [hnet] at h; simp at h
    | success resp =>
      rw [hnet] at h
      simp only at h
      by_cases herr : resp.isErroredOnProcessing
      · rw [if_pos herr] at h; simp at h
      · rw [if_neg herr] at h
        by_cases hs : pyStrip (List.foldl
            (fun acc u => acc ++ u ++ "\n") "" resp.parsedResults) = ""
        · rw [if_pos hs] at h; simp at h
        · rw [if_neg hs] at h
          have ht : t = pyStrip (List.foldl
              (fun acc u => acc ++ u ++ "\n") "" resp.parsedResults) := by
            simpa using h.symm
          subst ht
          exact ⟨hs, pyStrip_pyStrip _⟩

/-- Witness for C9: a response with one parsed result carrying
surrounding whitespace comes back stripped and non-empty. -/
theorem ocr_client_text_invariant_witness :
    ("hello" : String) ≠ "" ∧ pyStrip "hello" = "hello" :=
  ocr_client_text_invariant envOcrText [] false "hello" (by decide)

end TaxAnalyzer
